import Mathlib

/-!
Verification of the `actix-util` error-taxonomy crate: a shallow embedding of
`src/define.rs` (code registry, coded/described errors, foreign-error
adapters), `src/err.rs` (boundary responder) and `src/query.rs` (paginated
result builder), with theorems settling the spec's claims about them.

Machine integers (`u16`, `usize`) are modelled as `Nat`; none of the modelled
operations can overflow.  Rust code that can panic (`Option::expect`) is
modelled as returning `Option`, with `none` standing for the panic.
-/

namespace ActixUtil

/-- `canonical_reason_en` from `src/define.rs` — the English reason of each
registered code, generated there by the `status_codes!` macro table
(lines 78–140); any number outside the table yields `None`. -/
def canonical_reason_en (num : Nat) : Option String :=
  match num with
  | 1001 => some "file not found"
  | 1002 => some "permission denied"
  | 1003 => some "connection refused"
  | 1004 => some "connection reset"
  | 1005 => some "connection aborted"
  | 1006 => some "not connected"
  | 1007 => some "address in use"
  | 1008 => some "address not available"
  | 1009 => some "broken pipe"
  | 1010 => some "entity already exists"
  | 1011 => some "operation would block"
  | 1012 => some "invalid input parameter"
  | 1013 => some "invalid data"
  | 1014 => some "timed out"
  | 1015 => some "write zero"
  | 1016 => some "operation interrupted"
  | 1017 => some "other os error"
  | 1018 => some "unexpected end of file"
  | 2001 => some "invalid message quque"
  | 2002 => some "connection message quque error"
  | 2003 => some "subscribe message quque fail"
  | 2004 => some "fetch message fail"
  | 2005 => some "fetch message timeout"
  | 2006 => some "invalid message data"
  | 2007 => some "invalid command"
  | 2008 => some "invalid use rule"
  | 3001 => some "dataBase invalid query"
  | 3002 => some "database error"
  | 3003 => some "result not found"
  | 3101 => some "DataBase Invalid Connection"
  | 4001 => some "connection device error"
  | 4002 => some "connection device timeout"
  | 4003 => some "device address invalid"
  | 4004 => some "device not found"
  | 4005 => some "invalid device type"
  | 4006 => some "send data timeout"
  | 4007 => some "send data fail"
  | 4008 => some "invalid send data"
  | 4009 => some "receive data timeout"
  | 4010 => some "receive data fail"
  | 4011 => some "receive unexpected eof"
  | 4012 => some "device already exist"
  | 4013 => some "device not used"
  | 4014 => some "device report error"
  | 5001 => some "unexpected error occured"
  | 5002 => some "server register fail"
  | 5003 => some "configuration invalid"
  | 5100 => some "unknow error"
  | 6001 => some "role type error"
  | 7001 => some "translate init error"
  | 7002 => some "translate register error"
  | 7003 => some "translate check error"
  | 7004 => some "translate inner error"
  | _ => none

/-- `canonical_reason_cn` from `src/define.rs` — the Chinese reason of each
registered code from the same `status_codes!` table. -/
def canonical_reason_cn (num : Nat) : Option String :=
  match num with
  | 1001 => some "文件未发现"
  | 1002 => some "操作被拒绝"
  | 1003 => some "远程服务器连接被拒绝"
  | 1004 => some "远程服务器连接被重置"
  | 1005 => some "远程服务器连接被中止"
  | 1006 => some "网络操作失败，没有连接"
  | 1007 => some "Socket地址被占用"
  | 1008 => some "请求的地址不存在"
  | 1009 => some "操作失败，因为管道已关闭"
  | 1010 => some "文件已存在"
  | 1011 => some "操作需要阻塞才能完成"
  | 1012 => some "参数错误"
  | 1013 => some "数据无效"
  | 1014 => some "操作超时"
  | 1015 => some "写入时返回空数据"
  | 1016 => some "操作中断"
  | 1017 => some "其他I/O错误"
  | 1018 => some "操作需要阻塞才能完成"
  | 2001 => some "无效的消息队列类型"
  | 2002 => some "连接消息队列失败"
  | 2003 => some "订阅消息队列失败"
  | 2004 => some "获取消息失败"
  | 2005 => some "获取消息超时"
  | 2006 => some "无效的消息格式"
  | 2007 => some "无效的消息指令"
  | 2008 => some "无效的规则"
  | 3001 => some "数据库查询参数错误"
  | 3002 => some "数据库返回错误"
  | 3003 => some "没有查询到结果"
  | 3101 => some "数据连接无效"
  | 4001 => some "连接设备失败"
  | 4002 => some "连接设备超时"
  | 4003 => some "设备地址无效"
  | 4004 => some "设备不存在"
  | 4005 => some "不支持的设备类型"
  | 4006 => some "发送数据超时"
  | 4007 => some "发送数据失败"
  | 4008 => some "发送数据无效"
  | 4009 => some "接收数据超时"
  | 4010 => some "接收数据失败"
  | 4011 => some "设备连接异常结束"
  | 4012 => some "设备已存在"
  | 4013 => some "设备不可用"
  | 4014 => some "设备执行指令报错"
  | 5001 => some "发生意外错误"
  | 5002 => some "服务注册失败"
  | 5003 => some "配置无效"
  | 5100 => some "未定义错误"
  | 6001 => some "权限类型不存在"
  | 7001 => some "翻译器初始化错误"
  | 7002 => some "翻译器注册错误"
  | 7003 => some "翻译check错误"
  | 7004 => some "翻译内部错误"
  | _ => none

/-- The numeric codes enumerated in the `status_codes!` table of
`src/define.rs`, in table order. -/
def registryCodes : List Nat :=
  [1001, 1002, 1003, 1004, 1005, 1006, 1007, 1008, 1009, 1010, 1011, 1012,
   1013, 1014, 1015, 1016, 1017, 1018,
   2001, 2002, 2003, 2004, 2005, 2006, 2007, 2008,
   3001, 3002, 3003, 3101,
   4001, 4002, 4003, 4004, 4005, 4006, 4007, 4008, 4009, 4010, 4011, 4012,
   4013, 4014,
   5001, 5002, 5003, 5100,
   6001,
   7001, 7002, 7003, 7004]

/-- `Error` (the coded error) from `src/define.rs`: a tuple struct wrapping a
single `u16` code; equality is by code. -/
structure Error where
  code : Nat
deriving DecidableEq, Repr

/-- `Error::reason_en` from `src/define.rs`. -/
def Error.reason_en (e : Error) : Option String :=
  canonical_reason_en e.code

/-- `Error.reason_cn` from `src/define.rs`. -/
def Error.reason_cn (e : Error) : Option String :=
  canonical_reason_cn e.code

/-- Rust's `{:?}` (Debug) rendering of an `Option<&str>` value, as used by
`impl Display for Error` in `src/define.rs`.  Rust's Debug formatting of a
string escapes backslashes and double quotes; none of the registry strings
contain either, and the model covers exactly those two escapes. -/
def debugFmtStr (s : String) : String :=
  String.join (s.toList.map fun c =>
    if c = '\\' then "\\\\" else if c = '\"' then "\\\"" else String.singleton c)

/-- Rust `{:?}` for `Option<&str>`. -/
def debugFmtOptStr : Option String → String
  | some s => "Some(\"" ++ debugFmtStr s ++ "\")"
  | none => "None"

/-- `impl Display for Error` in `src/define.rs`:
`write!(formatter, "error code{} reason:{:?} desc:{:?}", self.0, self.reason_en(), self.reason_cn())`. -/
def Error.toString (e : Error) : String :=
  "error code" ++ Nat.repr e.code ++ " reason:" ++ debugFmtOptStr e.reason_en
    ++ " desc:" ++ debugFmtOptStr e.reason_cn

/-- `ExtraDescError` from `src/define.rs`: a coded error plus a free-text
description. -/
structure ExtraDescError where
  err : Error
  desc : String
deriving DecidableEq, Repr

/-- `impl From<Error> for ExtraDescError` in `src/define.rs`: wraps the code
with an empty description (`String::new()`). -/
def ExtraDescError.ofError (source : Error) : ExtraDescError :=
  { err := source, desc := "" }

/-- `Error::from_error` from `src/define.rs`: re-wraps another coded error,
keeping `self` as the code and using the other error's rendered display
string as the description. -/
def Error.from_error (self : Error) (error : Error) : ExtraDescError :=
  { err := self, desc := error.toString }

/-- `Error::from_desc` from `src/define.rs`. -/
def Error.from_desc (self : Error) (desc : String) : ExtraDescError :=
  { err := self, desc := desc }

/-! ### Foreign error model: `std::io::Error` -/

/-- `std::io::ErrorKind` (foreign type).  The first eighteen constructors are
the kinds enumerated by the `match` in `impl From<IoError> for ExtraDescError`
(`src/define.rs` lines 242–261); the remaining constructors model
representative unenumerated kinds that fall into the `_` arm. -/
inductive IoErrorKind where
  | NotFound
  | PermissionDenied
  | ConnectionRefused
  | ConnectionReset
  | ConnectionAborted
  | NotConnected
  | AddrInUse
  | AddrNotAvailable
  | BrokenPipe
  | AlreadyExists
  | WouldBlock
  | InvalidInput
  | InvalidData
  | TimedOut
  | WriteZero
  | Interrupted
  | Other
  | UnexpectedEof
  | HostUnreachable
  | NetworkUnreachable
  | NotADirectory
  | IsADirectory
  | StorageFull
  | FileTooLarge
  | Unsupported
  | OutOfMemory
deriving DecidableEq, Repr

/-- `std::io::Error` (foreign type), reduced to the two observations the crate
makes of it: `kind()` and the rendered `to_string()` message. -/
structure IoError where
  kind : IoErrorKind
  msg : String
deriving DecidableEq, Repr

/-- `e.to_string()` for the `IoError` model. -/
def IoError.toString (e : IoError) : String := e.msg

/-- `impl From<IoError> for ExtraDescError` in `src/define.rs` lines 240–265:
select the coded error by `e.kind()` and then convert it with
`error.into()`, i.e. `From<Error> for ExtraDescError`. -/
def ExtraDescError.ofIoError (e : IoError) : ExtraDescError :=
  let error : Error :=
    match e.kind with
    | .NotFound => ⟨1001⟩
    | .PermissionDenied => ⟨1002⟩
    | .ConnectionRefused => ⟨1003⟩
    | .ConnectionReset => ⟨1004⟩
    | .ConnectionAborted => ⟨1005⟩
    | .NotConnected => ⟨1006⟩
    | .AddrInUse => ⟨1007⟩
    | .AddrNotAvailable => ⟨1008⟩
    | .BrokenPipe => ⟨1009⟩
    | .AlreadyExists => ⟨1010⟩
    | .WouldBlock => ⟨1011⟩
    | .InvalidInput => ⟨1012⟩
    | .InvalidData => ⟨1013⟩
    | .TimedOut => ⟨1014⟩
    | .WriteZero => ⟨1015⟩
    | .Interrupted => ⟨1016⟩
    | .Other => ⟨1017⟩
    | .UnexpectedEof => ⟨1018⟩
    | _ => ⟨5100⟩
  ExtraDescError.ofError error

/-- Whether an `IoErrorKind` is one of the kinds enumerated by the adapter's
`match` (everything except the `_` arm). -/
def IoErrorKind.enumerated : IoErrorKind → Bool
  | .NotFound | .PermissionDenied | .ConnectionRefused | .ConnectionReset
  | .ConnectionAborted | .NotConnected | .AddrInUse | .AddrNotAvailable
  | .BrokenPipe | .AlreadyExists | .WouldBlock | .InvalidInput
  | .InvalidData | .TimedOut | .WriteZero | .Interrupted
  | .Other | .UnexpectedEof => true
  | _ => false

/-! ### Foreign error model: `diesel::result::Error` -/

/-- `diesel::result::DatabaseErrorInformation` (foreign): the
database-supplied message plus driver payload metadata, which the adapter
discards. -/
structure DatabaseErrorInformation where
  message : String
  details : Option String
  hint : Option String
  table_name : Option String
  column_name : Option String
  constraint_name : Option String
deriving DecidableEq, Repr

/-- `diesel::result::DatabaseErrorKind` (foreign). -/
inductive DatabaseErrorKind where
  | UniqueViolation
  | ForeignKeyViolation
  | UnableToSendCommand
  | SerializationFailure
  | Unknown
deriving DecidableEq, Repr

/-- `diesel::result::Error` (foreign type): the cases matched by
`impl From<DieselError> for ExtraDescError` in `src/define.rs`, plus
representative cases that fall into the catch-all arm.  Boxed inner errors
are reduced to their rendered message. -/
inductive DieselError where
  | DatabaseError (kind : DatabaseErrorKind) (info : DatabaseErrorInformation)
  | NotFound
  | QueryBuilderError (msg : String)
  | DeserializationError (msg : String)
  | SerializationError (msg : String)
  | RollbackTransaction
  | AlreadyInTransaction
deriving DecidableEq, Repr

/-- `error.to_string()` for the `DieselError` model (diesel's `Display`):
the database case renders the supplied message, boxed inner errors render
themselves, and the unit cases render fixed phrases. -/
def DieselError.toString : DieselError → String
  | .DatabaseError _ info => info.message
  | .NotFound => "NotFound"
  | .QueryBuilderError msg => msg
  | .DeserializationError msg => msg
  | .SerializationError msg => msg
  | .RollbackTransaction => "The current transaction was aborted"
  | .AlreadyInTransaction =>
      "Cannot perform this operation while inside of a transaction"

/-- `impl From<DieselError> for ExtraDescError` in `src/define.rs`
lines 279–288. -/
def ExtraDescError.ofDieselError (error : DieselError) : ExtraDescError :=
  match error with
  | .DatabaseError _ err => Error.from_desc ⟨3002⟩ err.message
  | .NotFound => Error.from_desc ⟨3003⟩ (DieselError.toString .NotFound)
  | .QueryBuilderError err => Error.from_desc ⟨3001⟩ err
  | err => Error.from_desc ⟨5100⟩ err.toString

/-! ### Boundary responder: `src/err.rs` -/

namespace Err

/-- `err::Error` from `src/err.rs`: a transport status code (modelled as the
`u16` value of `actix_web::http::StatusCode`) plus an optional described
error. -/
structure Error where
  real_error : Option ExtraDescError
  status : Nat
deriving DecidableEq, Repr

/-- `ErrorDetail` from `src/err.rs`. -/
structure ErrorDetail where
  err_type : String
  desc : String
deriving DecidableEq, Repr

/-- `ErrorWrapper` from `src/err.rs`. -/
structure ErrorWrapper where
  status : Nat
  details : List ErrorDetail
deriving DecidableEq, Repr

/-- `ErrorWrapper::new_from_error` from `src/err.rs` lines 30–48.  The Rust
code calls `reason_en().expect("unkown err")`, which panics when the code is
absent from the registry; the panic is modelled as `none`. -/
def ErrorWrapper.new_from_error (err : Error) : Option ErrorWrapper :=
  match err.real_error with
  | some real_error =>
    match real_error.err.reason_en with
    | some reason =>
        some { status := err.status, details := [⟨reason, real_error.desc⟩] }
    | none => none
  | none => some { status := err.status, details := [] }

/-- `ErrorOutTpl` from `src/err.rs`. -/
structure ErrorOutTpl where
  error : ErrorWrapper
deriving DecidableEq, Repr

/-- `ErrorOutTpl::new_from_error` from `src/err.rs`, propagating the possible
panic of `ErrorWrapper::new_from_error`. -/
def ErrorOutTpl.new_from_error (err : Error) : Option ErrorOutTpl :=
  (ErrorWrapper.new_from_error err).map fun w => { error := w }

/-- `Error::new` from `src/err.rs`. -/
def Error.new (code : Nat) : Error :=
  { real_error := none, status := code }

/-- `Error::err` from `src/err.rs`. -/
def Error.err (self : Error) (e : ExtraDescError) : Error :=
  { self with real_error := some e }

/-- `Error::not_find` from `src/err.rs`: attaches `DataBaseNotFound`
(code 3003). -/
def Error.not_find (self : Error) (msg : String) : Error :=
  { self with real_error := some (Error.from_desc ⟨3003⟩ msg) }

/-- `Error::invalid_data` from `src/err.rs`: attaches `InvalidMessageData`
(code 2006). -/
def Error.invalid_data (self : Error) (msg : String) : Error :=
  { self with real_error := some (Error.from_desc ⟨2006⟩ msg) }

/-- `ResponseError::error_response` for `err::Error` (`src/err.rs`
lines 94–110): render the attached described error, or, when none is
attached, a fixed fallback `ExtraDescError` with code 5001 and description
"发生意外错误".  The JSON body is modelled as the serialized `ErrorOutTpl`
structure; `none` models the panic on an unregistered code. -/
def Error.error_response (self : Error) : Option ErrorOutTpl :=
  let status_code := self.status
  if self.real_error.isSome then
    ErrorOutTpl.new_from_error self
  else
    let std_err : ActixUtil.Error := ⟨5001⟩
    let err_ext : ExtraDescError := { err := std_err, desc := "发生意外错误" }
    let err : Error := { status := status_code, real_error := some err_ext }
    ErrorOutTpl.new_from_error err

/-- Calling `error_response(&self)` in Rust takes `self` by shared reference:
the call returns the response and leaves the receiver unchanged.  The state
passing makes that explicit: the second component is the receiver after the
call. -/
def Error.render (self : Error) : Option ErrorOutTpl × Error :=
  (self.error_response, self)

/-- serde_json string escaping, restricted to the characters that occur in
this crate's payloads (backslash and double quote; no control characters
appear in any registry string or modelled description). -/
def jsonEscape (s : String) : String :=
  String.join (s.toList.map fun c =>
    if c = '\\' then "\\\\" else if c = '\"' then "\\\"" else String.singleton c)

/-- serde_json serialization of `ErrorDetail`, fields in declaration order. -/
def ErrorDetail.toJson (d : ErrorDetail) : String :=
  "\x7b\"err_type\":\"" ++ jsonEscape d.err_type ++ "\",\"desc\":\""
    ++ jsonEscape d.desc ++ "\"\x7d"

/-- serde_json serialization of `ErrorWrapper`, fields in declaration
order. -/
def ErrorWrapper.toJson (w : ErrorWrapper) : String :=
  "\x7b\"status\":" ++ Nat.repr w.status ++ ",\"details\":["
    ++ String.intercalate "," (w.details.map ErrorDetail.toJson) ++ "]\x7d"

/-- serde_json serialization of `ErrorOutTpl`: the byte string written as the
HTTP response body. -/
def ErrorOutTpl.toJson (t : ErrorOutTpl) : String :=
  "\x7b\"error\":" ++ t.error.toJson ++ "\x7d"

/-- `std::str::Utf8Error` (foreign), reduced to its rendered message. -/
structure Utf8Error where
  msg : String
deriving DecidableEq, Repr

/-- `impl From<Utf8Error> for Error` in `src/err.rs` lines 117–121:
`Error::new(StatusCode::INTERNAL_SERVER_ERROR).invalid_data(msg)`. -/
def Error.ofUtf8Error (error : Utf8Error) : Error :=
  (Error.new 500).invalid_data error.msg

/-- `impl From<std::io::Error> for Error` in `src/err.rs` lines 123–127. -/
def Error.ofIoError (error : IoError) : Error :=
  (Error.new 500).invalid_data error.toString

end Err

/-! ### Paginated result: `src/query.rs` -/

/-- `QueryOutput` from `src/query.rs`. -/
structure QueryOutput (T : Type) where
  items : List T
  limit : Nat
  total : Nat
deriving DecidableEq, Repr

/-- `QueryOutput::items` from `src/query.rs` (named `setItems` here because
the Lean structure field is already called `items`): sets `total` to the
item count and replaces the items. -/
def QueryOutput.setItems {T : Type} (self : QueryOutput T) (items : List T) :
    QueryOutput T :=
  { self with total := items.length, items := items }

/-- `QueryOutput::limit` from `src/query.rs` (named `setLimit` here). -/
def QueryOutput.setLimit {T : Type} (self : QueryOutput T) (limit : Nat) :
    QueryOutput T :=
  { self with limit := limit }

/-- `QueryOutput::total` from `src/query.rs` (named `setTotal` here). -/
def QueryOutput.setTotal {T : Type} (self : QueryOutput T) (count : Nat) :
    QueryOutput T :=
  { self with total := count }

/-! ## Theorems -/

/-- The unknown-error code 5100 lies outside the I/O band 1001–2000. -/
lemma not_io_band_5100 : ¬((1001 : Nat) ≤ 5100 ∧ (5100 : Nat) ≤ 2000) := by
  decide

/-- Any number on which `canonical_reason_en` answers is one of the table's
codes. -/
lemma mem_registry_of_reason_en (u : Nat) (h : canonical_reason_en u ≠ none) :
    u ∈ registryCodes := by
  unfold canonical_reason_en at h
  split at h
  all_goals first
    | decide
    | exact absurd rfl h

/-- Any number on which `canonical_reason_cn` answers is one of the table's
codes. -/
lemma mem_registry_of_reason_cn (u : Nat) (h : canonical_reason_cn u ≠ none) :
    u ∈ registryCodes := by
  unfold canonical_reason_cn at h
  split at h
  all_goals first
    | decide
    | exact absurd rfl h

/-- Claim C1 fails on the code: converting an I/O error of kind not-found with
rendered message "oops" yields an `ExtraDescError` whose description is the
empty string, not the foreign error's rendered message — the adapter selects
the code from `e.kind()` and then uses `From<Error> for ExtraDescError`,
which sets `desc` to `String::new()`, discarding the message. -/
theorem c1_io_adapter_counterexample :
    (ExtraDescError.ofIoError ⟨.NotFound, "oops"⟩).desc ≠
      IoError.toString ⟨.NotFound, "oops"⟩ ∧
    (ExtraDescError.ofIoError ⟨.NotFound, "oops"⟩).desc = "" := by
  decide

/-- Claim C1, amended: each enumerated OS failure kind maps to its dedicated
I/O-band code (not-found to 1001, …, other to 1017, unexpected-end-of-input
to 1018), every unenumerated kind maps to the generic unknown-error code 5100
and never to an I/O-band code, and the resulting description is the empty
string (not the foreign error's rendered message, which the adapter
discards). -/
theorem c1_io_adapter_amended :
    (∀ m, (ExtraDescError.ofIoError ⟨.NotFound, m⟩).err = ⟨1001⟩) ∧
    (∀ m, (ExtraDescError.ofIoError ⟨.PermissionDenied, m⟩).err = ⟨1002⟩) ∧
    (∀ m, (ExtraDescError.ofIoError ⟨.ConnectionRefused, m⟩).err = ⟨1003⟩) ∧
    (∀ m, (ExtraDescError.ofIoError ⟨.ConnectionReset, m⟩).err = ⟨1004⟩) ∧
    (∀ m, (ExtraDescError.ofIoError ⟨.ConnectionAborted, m⟩).err = ⟨1005⟩) ∧
    (∀ m, (ExtraDescError.ofIoError ⟨.NotConnected, m⟩).err = ⟨1006⟩) ∧
    (∀ m, (ExtraDescError.ofIoError ⟨.AddrInUse, m⟩).err = ⟨1007⟩) ∧
    (∀ m, (ExtraDescError.ofIoError ⟨.AddrNotAvailable, m⟩).err = ⟨1008⟩) ∧
    (∀ m, (ExtraDescError.ofIoError ⟨.BrokenPipe, m⟩).err = ⟨1009⟩) ∧
    (∀ m, (ExtraDescError.ofIoError ⟨.AlreadyExists, m⟩).err = ⟨1010⟩) ∧
    (∀ m, (ExtraDescError.ofIoError ⟨.WouldBlock, m⟩).err = ⟨1011⟩) ∧
    (∀ m, (ExtraDescError.ofIoError ⟨.InvalidInput, m⟩).err = ⟨1012⟩) ∧
    (∀ m, (ExtraDescError.ofIoError ⟨.InvalidData, m⟩).err = ⟨1013⟩) ∧
    (∀ m, (ExtraDescError.ofIoError ⟨.TimedOut, m⟩).err = ⟨1014⟩) ∧
    (∀ m, (ExtraDescError.ofIoError ⟨.WriteZero, m⟩).err = ⟨1015⟩) ∧
    (∀ m, (ExtraDescError.ofIoError ⟨.Interrupted, m⟩).err = ⟨1016⟩) ∧
    (∀ m, (ExtraDescError.ofIoError ⟨.Other, m⟩).err = ⟨1017⟩) ∧
    (∀ m, (ExtraDescError.ofIoError ⟨.UnexpectedEof, m⟩).err = ⟨1018⟩) ∧
    (∀ e : IoError, e.kind.enumerated = false →
      (ExtraDescError.ofIoError e).err = ⟨5100⟩ ∧
      ¬(1001 ≤ (ExtraDescError.ofIoError e).err.code ∧
        (ExtraDescError.ofIoError e).err.code ≤ 2000)) ∧
    (∀ e : IoError, (ExtraDescError.ofIoError e).desc = "") := by
  refine ⟨fun _ => rfl, fun _ => rfl, fun _ => rfl, fun _ => rfl, fun _ => rfl,
    fun _ => rfl, fun _ => rfl, fun _ => rfl, fun _ => rfl, fun _ => rfl,
    fun _ => rfl, fun _ => rfl, fun _ => rfl, fun _ => rfl, fun _ => rfl,
    fun _ => rfl, fun _ => rfl, fun _ => rfl, ?_, ?_⟩
  · rintro ⟨kind, msg⟩ h
    cases kind <;> first
      | exact ⟨rfl, not_io_band_5100⟩
      | exact absurd h (by simp [IoErrorKind.enumerated])
  · rintro ⟨kind, msg⟩
    cases kind <;> rfl

/-- Claim C1 witness: the amended theorem at kind host-unreachable (an
unenumerated kind) with message "net down". -/
theorem c1_io_adapter_amended_witness :
    (IoErrorKind.HostUnreachable.enumerated = false) ∧
    (ExtraDescError.ofIoError ⟨.HostUnreachable, "net down"⟩).err = ⟨5100⟩ :=
  ⟨rfl, (c1_io_adapter_amended.2.2.2.2.2.2.2.2.2.2.2.2.2.2.2.2.2.2.1
    ⟨.HostUnreachable, "net down"⟩ rfl).1⟩

/-- Claim C5: the persistence adapter maps a structured database error to
code 3002 with the database-supplied message (metadata discarded), the
not-found case to code 3003 with the foreign error's rendered message, a
query-construction error to code 3001 with that error's message, and every
other persistence failure to code 5100 with its rendered message. -/
theorem c5_diesel_adapter :
    (∀ (k : DatabaseErrorKind) (info : DatabaseErrorInformation),
      ExtraDescError.ofDieselError (.DatabaseError k info) =
        ⟨⟨3002⟩, info.message⟩) ∧
    ExtraDescError.ofDieselError .NotFound =
      ⟨⟨3003⟩, DieselError.toString .NotFound⟩ ∧
    (∀ m, ExtraDescError.ofDieselError (.QueryBuilderError m) = ⟨⟨3001⟩, m⟩) ∧
    (∀ m, ExtraDescError.ofDieselError (.DeserializationError m) =
      ⟨⟨5100⟩, DieselError.toString (.DeserializationError m)⟩) ∧
    (∀ m, ExtraDescError.ofDieselError (.SerializationError m) =
      ⟨⟨5100⟩, DieselError.toString (.SerializationError m)⟩) ∧
    ExtraDescError.ofDieselError .RollbackTransaction =
      ⟨⟨5100⟩, DieselError.toString .RollbackTransaction⟩ ∧
    ExtraDescError.ofDieselError .AlreadyInTransaction =
      ⟨⟨5100⟩, DieselError.toString .AlreadyInTransaction⟩ :=
  ⟨fun _ _ => rfl, rfl, fun _ => rfl, fun _ => rfl, fun _ => rfl, rfl, rfl⟩

/-- Claim C7: re-wrapping one coded error under another keeps the outer code
as the classification and sets the description to the full rendered display
string of the inner coded error; in particular `Error(6001).from_error
(Error(1001))` yields code 6001 and the display form of `Error(1001)`. -/
theorem c7_rewrap_preserves_context :
    (∀ outerE innerE : Error,
      (Error.from_error outerE innerE).err = outerE ∧
      (Error.from_error outerE innerE).desc = innerE.toString) ∧
    Error.from_error ⟨6001⟩ ⟨1001⟩ =
      ⟨⟨6001⟩,
       "error code1001 reason:Some(\"file not found\") desc:Some(\"文件未发现\")"⟩ :=
  ⟨fun _ _ => ⟨rfl, rfl⟩, by decide⟩

/-- Claim C10: `QueryOutput::items` returns a value whose items equal the
argument and whose total equals its length unconditionally, overwriting an
earlier explicit total; only a total set after items survives; limit is left
unchanged. -/
theorem c10_query_output_items {T : Type} (q : QueryOutput T) (v : List T)
    (n : Nat) :
    (q.setItems v).items = v ∧
    (q.setItems v).total = v.length ∧
    (q.setItems v).limit = q.limit ∧
    ((q.setTotal n).setItems v).total = v.length ∧
    ((q.setItems v).setTotal n).total = n :=
  ⟨rfl, rfl, rfl, rfl, rfl⟩

/-- Claim C6: the registry lookup is total — every code in the static table
gets a non-empty English and Chinese reason from `canonical_reason_en` and
`canonical_reason_cn`, and every 16-bit value outside the table gets `none`
from both. -/
theorem c6_registry_total :
    (∀ c ∈ registryCodes,
      (canonical_reason_en c).isSome = true ∧
      (canonical_reason_cn c).isSome = true ∧
      ((canonical_reason_en c).getD "").length ≠ 0 ∧
      ((canonical_reason_cn c).getD "").length ≠ 0) ∧
    (∀ u : Nat, u < 65536 → u ∉ registryCodes →
      canonical_reason_en u = none ∧ canonical_reason_cn u = none) := by
  constructor
  · decide
  · intro u _ hu
    constructor
    · by_contra hne
      exact hu (mem_registry_of_reason_en u hne)
    · by_contra hne
      exact hu (mem_registry_of_reason_cn u hne)

/-- Claim C6 witness: the totality theorem at the registered code 1001 and
the unregistered 16-bit value 9999. -/
theorem c6_registry_total_witness :
    (canonical_reason_en 1001).isSome = true ∧
    canonical_reason_en 9999 = none ∧ canonical_reason_cn 9999 = none :=
  ⟨(c6_registry_total.1 1001 (by decide)).1,
   (c6_registry_total.2 9999 (by decide) (by decide)).1,
   (c6_registry_total.2 9999 (by decide) (by decide)).2⟩

/-- Claim C2 fails on the code: rendering a boundary `Error` whose attached
described error carries code 9999 (absent from the registry) aborts —
`ErrorWrapper::new_from_error` calls `reason_en().expect("unkown err")`,
which panics (modelled as `none`) instead of substituting a placeholder. -/
theorem c2_unregistered_code_counterexample :
    Err.ErrorWrapper.new_from_error ⟨some ⟨⟨9999⟩, "d"⟩, 500⟩ = none ∧
    Err.Error.error_response ⟨some ⟨⟨9999⟩, "d"⟩, 500⟩ = none := by
  decide

/-- Claim C2, amended: rendering a boundary `Error` panics (fails fast via
`expect("unkown err")`, modelled as `none`) exactly when the attached
described error's code is absent from the registry; no placeholder string is
substituted.  For any attached registered code, and in the no-attached-error
fallback path, rendering succeeds. -/
theorem c2_render_panics_iff_unregistered (e : Err.Error) :
    Err.Error.error_response e = none ↔
      ∃ r, e.real_error = some r ∧ canonical_reason_en r.err.code = none := by
  cases h : e.real_error with
  | none =>
    have h5001 : Error.reason_en ⟨5001⟩ = some "unexpected error occured" := rfl
    simp [Err.Error.error_response, h, Err.ErrorOutTpl.new_from_error,
      Err.ErrorWrapper.new_from_error, h5001]
  | some r =>
    cases hr : canonical_reason_en r.err.code with
    | none =>
      simp [Err.Error.error_response, h, Err.ErrorOutTpl.new_from_error,
        Err.ErrorWrapper.new_from_error, Error.reason_en, hr]
    | some reason =>
      simp [Err.Error.error_response, h, Err.ErrorOutTpl.new_from_error,
        Err.ErrorWrapper.new_from_error, Error.reason_en, hr]

/-- Claim C3: rendering a boundary `Error` built as
`Error::new(S).err(ExtraDescError(code X, desc D))`, where `X` is registered
with English reason `r`, yields a payload whose status equals `S`, whose
details array has exactly the one element with `err_type = r` and
`desc = D`. -/
theorem c3_render_roundtrip (S X : Nat) (D r : String)
    (h : canonical_reason_en X = some r) :
    Err.Error.error_response ((Err.Error.new S).err ⟨⟨X⟩, D⟩) =
      some ⟨⟨S, [⟨r, D⟩]⟩⟩ := by
  simp [Err.Error.error_response, Err.Error.new, Err.Error.err,
    Err.ErrorOutTpl.new_from_error, Err.ErrorWrapper.new_from_error,
    Error.reason_en, h]

/-- Claim C3 witness: the round-trip theorem at status 404, code 1001
("file not found") and description "missing". -/
theorem c3_render_roundtrip_witness :
    Err.Error.error_response ((Err.Error.new 404).err ⟨⟨1001⟩, "missing"⟩) =
      some ⟨⟨404, [⟨"file not found", "missing"⟩]⟩⟩ :=
  c3_render_roundtrip 404 1001 "missing" "file not found" rfl

/-- Claim C4: rendering a boundary `Error` constructed with status 500 and no
attached described error yields the fallback payload — status 500 and exactly
the one detail `err_type = "unexpected error occured"` (the English reason of
code 5001), `desc = "发生意外错误"` — never an empty details array. -/
theorem c4_fallback_payload :
    Err.Error.error_response (Err.Error.new 500) =
      some ⟨⟨500, [⟨"unexpected error occured", "发生意外错误"⟩]⟩⟩ ∧
    canonical_reason_en 5001 = some "unexpected error occured" := by
  decide

/-- Claim C8: converting a transport-layer failure (a UTF-8 encoding error or
a stream I/O error) into the boundary `Error` yields status 500
(internal-server class) with an attached described error carrying code 2006 —
`InvalidMessageData`, the code pre-selected by the `invalid_data` setter —
and the failure's rendered message as description, through the same
`Error::new(500).invalid_data(msg)` construction path. -/
theorem c8_transport_adapters :
    (∀ u : Err.Utf8Error,
      Err.Error.ofUtf8Error u = ⟨some ⟨⟨2006⟩, u.msg⟩, 500⟩ ∧
      Err.Error.ofUtf8Error u = (Err.Error.new 500).invalid_data u.msg) ∧
    (∀ e : IoError,
      Err.Error.ofIoError e = ⟨some ⟨⟨2006⟩, e.toString⟩, 500⟩ ∧
      Err.Error.ofIoError e = (Err.Error.new 500).invalid_data e.toString) ∧
    canonical_reason_en 2006 = some "invalid message data" :=
  ⟨fun _ => ⟨rfl, rfl⟩, fun _ => ⟨rfl, rfl⟩, rfl⟩

/-- Claim C9: rendering is deterministic and idempotent — `error_response`
takes its receiver by shared reference, so a call leaves the boundary `Error`
unchanged, and a second call on that unchanged value produces an equal
payload, hence a byte-identical serialized JSON body. -/
theorem c9_render_idempotent (e : Err.Error) :
    (e.render).2 = e ∧
    ((e.render).2.render).1 = (e.render).1 ∧
    ((e.render).2.render).1.map Err.ErrorOutTpl.toJson =
      (e.render).1.map Err.ErrorOutTpl.toJson :=
  ⟨rfl, rfl, rfl⟩

end ActixUtil
